import Mathlib

/-!
Verification of the URL routing layer and the view test suite of the
`hw05_final` Django blog application, against its natural-language
specification.  The routing table is embedded from `posts/urls.py`; the
broken/placeholder test bodies are embedded from
`posts/tests/test_view.py`; view behaviour that the excerpt does not
contain (index pagination, index whole-page cache, group filtering) is
modelled from the spec, as marked on each such definition.
-/

namespace Hw05

/-! ## Path converters (Django `django.urls.converters` semantics) -/

/-- The path converters appearing in `posts/urls.py`.  `noConv` is an
untyped parameter such as `<username>` in the `add_comment` route, for
which Django falls back to the default `str` converter. -/
inductive Conv
  | str
  | int
  | slug
  | noConv
deriving DecidableEq

/-- Django `StringConverter` regex `[^/]+`: any non-empty run of
characters other than a slash (stated over the string's character
list). -/
def strConvMatches (s : String) : Bool :=
  !s.data.isEmpty && s.data.all (fun c => c != '/')

/-- Django `IntConverter` regex `[0-9]+`: a non-empty run of decimal
digits. -/
def intConvMatches (s : String) : Bool :=
  !s.data.isEmpty && s.data.all (fun c => c.isDigit)

/-- Django `SlugConverter` regex `[-a-zA-Z0-9_]+`. -/
def slugConvMatches (s : String) : Bool :=
  !s.data.isEmpty && s.data.all (fun c => c.isAlpha || c.isDigit || c == '-' || c == '_')

/-- Whether a path segment is accepted by a converter.  An untyped
parameter uses the default `str` converter, as Django's
`_route_to_regex` does when no converter name is given. -/
def convMatches : Conv → String → Bool
  | .str, s => strConvMatches s
  | .int, s => intConvMatches s
  | .slug, s => slugConvMatches s
  | .noConv, s => strConvMatches s

/-! ## The routing table of `posts/urls.py` -/

/-- One segment of a `path()` pattern: a literal or a converter-typed
parameter. -/
inductive Seg
  | lit (s : String)
  | param (c : Conv) (pname : String)
deriving DecidableEq

/-- The view callables referenced by `posts/urls.py`. -/
inductive View
  | page_not_found
  | server_error
  | index
  | group_posts
  | new_post
  | justStaticPage
  | follow_index
  | profile_follow
  | profile_unfollow
  | profile
  | post_view
  | post_edit
  | add_comment
deriving DecidableEq

/-- One `path(route, view, name=...)` entry. -/
structure Route where
  segs : List Seg
  view : View
  routeName : Option String
deriving DecidableEq

/-- `urlpatterns` of `posts/urls.py`, in source order.  A trailing `/`
in the route string ends the last segment and is not a segment of its
own, so `'404/'` is the single segment `404` and `""` is the empty
segment list. -/
def urlpatterns : List Route :=
  [ ⟨[Seg.lit "404"], View.page_not_found, some "404"⟩,
    ⟨[Seg.lit "500"], View.server_error, some "500"⟩,
    ⟨[], View.index, some "index"⟩,
    ⟨[Seg.lit "group", Seg.param Conv.slug "slug"], View.group_posts, some "group"⟩,
    ⟨[Seg.lit "new"], View.new_post, some "new_post"⟩,
    ⟨[Seg.lit "justpage"], View.justStaticPage, none⟩,
    ⟨[Seg.lit "follow"], View.follow_index, some "follow_index"⟩,
    ⟨[Seg.param Conv.str "username", Seg.lit "follow"], View.profile_follow,
      some "profile_follow"⟩,
    ⟨[Seg.param Conv.str "username", Seg.lit "unfollow"], View.profile_unfollow,
      some "profile_unfollow"⟩,
    ⟨[Seg.param Conv.str "username"], View.profile, some "profile"⟩,
    ⟨[Seg.param Conv.str "username", Seg.param Conv.int "post_id"], View.post_view,
      some "post"⟩,
    ⟨[Seg.param Conv.str "username", Seg.param Conv.int "post_id", Seg.lit "edit"],
      View.post_edit, some "post_edit"⟩,
    ⟨[Seg.param Conv.noConv "username", Seg.param Conv.int "post_id", Seg.lit "comment"],
      View.add_comment, some "add_comment"⟩ ]

/-- The `path("<str:username>/", views.profile, name="profile")` entry. -/
def profile_route : Route :=
  ⟨[Seg.param Conv.str "username"], View.profile, some "profile"⟩

/-- The `path("<str:username>/<int:post_id>/", views.post_view, name="post")`
entry. -/
def post_route : Route :=
  ⟨[Seg.param Conv.str "username", Seg.param Conv.int "post_id"], View.post_view,
    some "post"⟩

/-- The `path("<str:username>/<int:post_id>/edit/", ...)` entry. -/
def post_edit_route : Route :=
  ⟨[Seg.param Conv.str "username", Seg.param Conv.int "post_id", Seg.lit "edit"],
    View.post_edit, some "post_edit"⟩

/-- The `path("<username>/<int:post_id>/comment/", ...)` entry. -/
def add_comment_route : Route :=
  ⟨[Seg.param Conv.noConv "username", Seg.param Conv.int "post_id", Seg.lit "comment"],
    View.add_comment, some "add_comment"⟩

/-- A pattern segment accepts a request-path segment. -/
def segMatches : Seg → String → Bool
  | .lit l, s => s == l
  | .param c _, s => convMatches c s

/-- A route matches a request path (given as its list of segments):
same number of segments, each accepted pointwise. -/
def routeMatches (r : Route) (p : List String) : Bool :=
  r.segs.length == p.length
    && (List.zip r.segs p).all (fun sp => segMatches sp.1 sp.2)

/-- Django's URL resolution over `urlpatterns`: the first route in
declaration order that matches wins. -/
def resolve (p : List String) : Option View :=
  (urlpatterns.find? (fun r => routeMatches r p)).map Route.view

/-! ## The spec's section-6 URL table -/

/-- A segment of a table row of spec section 6, where parameters carry
no converter annotation (`<username>`, `<post_id>`, `<slug>`). -/
inductive SpecSeg
  | lit (s : String)
  | param (pname : String)
deriving DecidableEq

/-- The converter-erased surface of a route: what the spec's table can
see of it. -/
def routeSurface (r : Route) : List SpecSeg :=
  r.segs.map (fun seg =>
    match seg with
    | Seg.lit s => SpecSeg.lit s
    | Seg.param _ n => SpecSeg.param n)

/-- The surfaces of all declared routes. -/
def urlSurfaces : List (List SpecSeg) := urlpatterns.map routeSurface

/-- The URL table of spec section 6.  This definition follows the
spec's words (each row's Path column), for comparison with
`urlpatterns` taken from the source. -/
def specTable : List (List SpecSeg) :=
  [ [SpecSeg.lit "404"],
    [SpecSeg.lit "500"],
    [],
    [SpecSeg.lit "group", SpecSeg.param "slug"],
    [SpecSeg.lit "new"],
    [SpecSeg.lit "follow"],
    [SpecSeg.param "username", SpecSeg.lit "follow"],
    [SpecSeg.param "username", SpecSeg.lit "unfollow"],
    [SpecSeg.param "username"],
    [SpecSeg.param "username", SpecSeg.param "post_id"],
    [SpecSeg.param "username", SpecSeg.param "post_id", SpecSeg.lit "edit"],
    [SpecSeg.param "username", SpecSeg.param "post_id", SpecSeg.lit "comment"] ]

/-! ## Data model and spec-modelled view behaviour

The view functions (`views.py`) and models (`models.py`) are not part of
the excerpt; only `urls.py` and the view tests are.  The definitions in
this section are therefore modelled from the spec, as each doc comment
records. -/

/-- A `Post` record as spec section 3 describes it: text, author,
optional group (the group is identified by its slug here, matching how
the group page selects posts). -/
structure Post where
  text : String
  author : String
  group : Option String
deriving DecidableEq

/-- Modelled from the spec: the framework `Paginator` and the views
using it are not under `src/`; spec section 4 fixes pagination at 10
items per page, page `n` (1-based) holding the `n`-th 10-element slice
of the listing. -/
def paginatorObjectList (posts : List Post) (per_page page : Nat) : List Post :=
  (posts.drop ((page - 1) * per_page)).take per_page

/-- Modelled from the spec: the `index` view is not under `src/`; per
spec section 6 it is the "paginated post feed", at 10 items per page. -/
def indexPage (posts : List Post) (page : Nat) : List Post :=
  paginatorObjectList posts 10 page

/-- Modelled from the spec: the `group_posts` view is not under
`src/`; per spec section 6 the group page shows "posts filtered by
group". -/
def group_page_posts (slug : String) (posts : List Post) : List Post :=
  posts.filter (fun p => p.group == some slug)

/-- The whole-page cache for the index view: either empty or holding
the rendered body of a previous response. -/
structure CacheState where
  cached : Option (List String)
deriving DecidableEq

/-- The empty cache. -/
def emptyCache : CacheState := ⟨none⟩

/-- Modelled from the spec: the index template is not under `src/`;
the rendered body of the index page is taken to be the sequence of the
posts' texts, so that two response bodies are equal exactly when the
rendered post sequences are. -/
def renderIndex (posts : List Post) : List String := posts.map Post.text

/-- Modelled from the spec: whole-page caching of the index view ("a
stock framework feature configured via settings/decorators", spec
section 4, asserted by `test_index_page_cache`).  A request served
while the cache holds a body returns that body unchanged; otherwise the
page is rendered from the current posts and stored. -/
def requestIndex (st : CacheState) (posts : List Post) : List String × CacheState :=
  match st.cached with
  | some body => (body, st)
  | none => (renderIndex posts, ⟨some (renderIndex posts)⟩)

/-- `cache.clear()`: the cache is emptied. -/
def cacheClear (_ : CacheState) : CacheState := ⟨none⟩

/-! ## Embedding of the broken and placeholder test methods

`posts/tests/test_view.py` is under `src/`, so the bodies below are
transcribed from it, and Python's name resolution is embedded far
enough to run them: evaluating a name not bound in any enclosing scope
raises `NameError` immediately, aborting the test method. -/

/-- Python expressions occurring in the embedded test bodies. -/
inductive PyExpr
  | pyname (s : String)
  | intLit (n : Nat)
  | strLit (s : String)
  | methodCall (obj : PyExpr) (method : String) (args : List PyExpr)

/-- Python statements occurring in the embedded test bodies. -/
inductive PyStmt
  | passStmt
  | assign (target : String) (value : PyExpr)
  | exprStmt (e : PyExpr)

mutual

/-- Resolve every name of an expression against the scope, left to
right as CPython evaluates; the first unbound name is returned as the
`NameError` payload. -/
def exprNamesOk (scope : List String) : PyExpr → Except String Unit
  | .pyname s => if s ∈ scope then .ok () else .error s
  | .intLit _ => .ok ()
  | .strLit _ => .ok ()
  | .methodCall obj _ args =>
    match exprNamesOk scope obj with
    | .error n => .error n
    | .ok _ => exprsNamesOk scope args

/-- `exprNamesOk` over an argument list, left to right. -/
def exprsNamesOk (scope : List String) : List PyExpr → Except String Unit
  | [] => .ok ()
  | e :: es =>
    match exprNamesOk scope e with
    | .error n => .error n
    | .ok _ => exprsNamesOk scope es

end

/-- Whether a statement's expression is an HTTP request of the test
client (a `.get(...)` or `.post(...)` method call). -/
def isRequestCall : PyExpr → Bool
  | .methodCall _ m _ => m == "get" || m == "post"
  | _ => false

/-- Whether a statement's expression is a `unittest` assertion
(`self.assert...(...)`). -/
def isAssertionCall : PyExpr → Bool
  | .methodCall (.pyname "self") m _ => m.startsWith "assert"
  | _ => false

/-- What a test-method run touches: how many client requests it issued
and how many assertions it reached. -/
structure RunStats where
  requests : Nat
  assertionsReached : Nat
deriving DecidableEq

/-- Run one statement: `pass` does nothing; an assignment evaluates its
right-hand side and binds the target as a new local; an expression
statement evaluates its expression, counting requests and assertions.
An unbound name aborts with its `NameError`. -/
def runStmt (scope : List String) (stats : RunStats) :
    PyStmt → Except String (List String × RunStats)
  | .passStmt => .ok (scope, stats)
  | .assign t e =>
    match exprNamesOk scope e with
    | .error n => .error n
    | .ok _ => .ok (t :: scope, stats)
  | .exprStmt e =>
    match exprNamesOk scope e with
    | .error n => .error n
    | .ok _ =>
      .ok (scope,
        ⟨stats.requests + (if isRequestCall e then 1 else 0),
         stats.assertionsReached + (if isAssertionCall e then 1 else 0)⟩)

/-- Run a method body statement by statement.  On a `NameError` the
error carries the unbound name together with the statistics gathered so
far (in particular how many assertions had been reached). -/
def runBody (scope : List String) (stats : RunStats) :
    List PyStmt → Except (String × RunStats) RunStats
  | [] => .ok stats
  | s :: rest =>
    match runStmt scope stats s with
    | .error n => .error (n, stats)
    | .ok (scope2, stats2) => runBody scope2 stats2 rest

/-- The module-level names bound in `posts/tests/test_view.py`: its
imports and the two test classes. -/
def moduleScope : List String :=
  ["forms", "cache", "Client", "TestCase", "reverse", "Group", "Post", "User",
   "PostViewTests", "PaginatorViewsTest"]

/-- The names in scope inside a test method of `PostViewTests`: the
parameter `self` plus the module scope (Python does not place class
attributes in the method's name scope). -/
def methodScope : List String := "self" :: moduleScope

/-- The body of `PostViewTests.test_follow_unfollow_feauture`,
transcribed statement by statement (comments elided, as they bind
nothing). -/
def test_follow_unfollow_feauture : List PyStmt :=
  [ PyStmt.assign "followers_count"
      (PyExpr.methodCall (PyExpr.pyname "user") "count" []),
    PyStmt.exprStmt (PyExpr.methodCall (PyExpr.pyname "self") "assertEqual"
      [PyExpr.pyname "followers_count", PyExpr.intLit 1,
       PyExpr.strLit "Не работает подписка"]),
    PyStmt.assign "followers_count"
      (PyExpr.methodCall (PyExpr.pyname "user") "count" []),
    PyStmt.exprStmt (PyExpr.methodCall (PyExpr.pyname "self") "assertEqual"
      [PyExpr.pyname "followers_count", PyExpr.intLit 0,
       PyExpr.strLit "Не работает отписка"]) ]

/-- The body of `PostViewTests.test_profile_shows_new_post`: a lone
`pass`. -/
def test_profile_shows_new_post : List PyStmt := [PyStmt.passStmt]

/-- The body of `PostViewTests.test_only_authorized_client_can_comment`:
a lone `pass`. -/
def test_only_authorized_client_can_comment : List PyStmt := [PyStmt.passStmt]

/-! ## Theorems -/

/-- Claim C1, counterexample: the claim that the routes of
`urlpatterns` and the rows of the spec's section-6 table coincide is
false at the concrete route `justpage/` (the `JustStaticPage` view),
which is declared in `urlpatterns` but absent from the table. -/
theorem c1_url_surface_counterexample :
    [SpecSeg.lit "justpage"] ∈ urlSurfaces ∧
    [SpecSeg.lit "justpage"] ∉ specTable ∧
    ¬ ((∀ s ∈ urlSurfaces, s ∈ specTable) ∧ (∀ t ∈ specTable, t ∈ urlSurfaces)) := by
  refine ⟨by decide, by decide, fun h => ?_⟩
  exact absurd (h.1 [SpecSeg.lit "justpage"] (by decide)) (by decide)

/-- Claim C1, amended: every row of the spec's section-6 table is a
route declared in `urlpatterns`, and every route declared in
`urlpatterns` except the undocumented `justpage/` route appears in the
table. -/
theorem c1_url_surface_amended :
    (∀ t ∈ specTable, t ∈ urlSurfaces) ∧
    (∀ s ∈ urlSurfaces, s ∈ specTable ∨ s = [SpecSeg.lit "justpage"]) := by
  decide

/-- Claim C1, witness for the amended theorem at the concrete table row
`/group/<slug>/`. -/
theorem c1_url_surface_amended_witness :
    [SpecSeg.lit "group", SpecSeg.param "slug"] ∈ urlSurfaces :=
  c1_url_surface_amended.1 [SpecSeg.lit "group", SpecSeg.param "slug"] (by decide)

/-- Claim C7: `urlpatterns` binds the path `404/` to the
`page_not_found` view (under the URL name `404`) and the path `500/`
to the `server_error` view (under the URL name `500`). -/
theorem c7_error_pages_registered :
    (⟨[Seg.lit "404"], View.page_not_found, some "404"⟩ : Route) ∈ urlpatterns ∧
    (⟨[Seg.lit "500"], View.server_error, some "500"⟩ : Route) ∈ urlpatterns ∧
    resolve ["404"] = some View.page_not_found ∧
    resolve ["500"] = some View.server_error := by
  decide

/-- Claim C8: resolution is first-match in declaration order, so the
literal routes shadow the `<str:username>/` catch-all: the profile
route by itself would accept each of the literals `404`, `500`, `new`,
`justpage` and `follow` as a username, yet each of those paths (and
every `group/<slug>/` path) dispatches to its dedicated view, never to
`profile`. -/
theorem c8_literal_routes_shadow_profile :
    (routeMatches profile_route ["404"] = true ∧
     routeMatches profile_route ["500"] = true ∧
     routeMatches profile_route ["new"] = true ∧
     routeMatches profile_route ["justpage"] = true ∧
     routeMatches profile_route ["follow"] = true) ∧
    (resolve ["404"] = some View.page_not_found ∧
     resolve ["500"] = some View.server_error ∧
     resolve ["new"] = some View.new_post ∧
     resolve ["justpage"] = some View.justStaticPage ∧
     resolve ["follow"] = some View.follow_index) ∧
    ∀ s : String, slugConvMatches s = true →
      resolve ["group", s] = some View.group_posts ∧
      resolve ["group", s] ≠ some View.profile := by
  refine ⟨by decide, by decide, fun s hs => ?_⟩
  have h : resolve ["group", s] = some View.group_posts := by
    simp [resolve, urlpatterns, routeMatches, segMatches, convMatches,
      List.find?, hs]
  exact ⟨h, by simp [h]⟩

/-- Claim C8, witness at the concrete slug `test-slug`. -/
theorem c8_literal_routes_shadow_profile_witness :
    resolve ["group", "test-slug"] = some View.group_posts :=
  (c8_literal_routes_shadow_profile.2.2 "test-slug" (by decide)).1

/-- Claim C9: the `<int:post_id>` converter of the post, edit and
comment routes accepts exactly the non-empty decimal-digit strings
(the decimal numerals of the non-negative integers), so a path whose
second segment is not such a string matches none of the three
routes. -/
theorem c9_post_id_int_converter :
    ∀ u s : String,
      (routeMatches post_route [u, s] = true ↔
        strConvMatches u = true ∧ s.data ≠ [] ∧ s.data.all Char.isDigit = true) ∧
      (intConvMatches s = false →
        routeMatches post_route [u, s] = false ∧
        routeMatches post_edit_route [u, s, "edit"] = false ∧
        routeMatches add_comment_route [u, s, "comment"] = false) := by
  intro u s
  constructor
  · simp [routeMatches, post_route, segMatches, convMatches, intConvMatches,
      List.isEmpty_iff, and_assoc]
  · intro hint
    refine ⟨?_, ?_, ?_⟩ <;>
      simp [routeMatches, post_route, post_edit_route, add_comment_route,
        segMatches, convMatches, hint]

/-- Claim C9, witness: the concrete path `leo/abc/` matches no post
route while `leo/12/` matches the post detail route. -/
theorem c9_post_id_int_converter_witness :
    routeMatches post_route ["leo", "abc"] = false ∧
    routeMatches post_route ["leo", "12"] = true :=
  ⟨((c9_post_id_int_converter "leo" "abc").2 (by decide)).1,
   (c9_post_id_int_converter "leo" "12").1.mpr ⟨by decide, by decide, by decide⟩⟩

/-- Claim C10: the untyped `<username>` parameter of the `add_comment`
route and the `<str:username>` parameter of the other username routes
accept exactly the same segments, namely any non-empty segment without
a slash. -/
theorem c10_untyped_equals_str_converter :
    add_comment_route.segs.head? = some (Seg.param Conv.noConv "username") ∧
    profile_route.segs.head? = some (Seg.param Conv.str "username") ∧
    ∀ s : String,
      segMatches (Seg.param Conv.noConv "username") s
        = segMatches (Seg.param Conv.str "username") s ∧
      (segMatches (Seg.param Conv.noConv "username") s = true ↔
        s.data ≠ [] ∧ ∀ c ∈ s.data, c ≠ '/') := by
  refine ⟨rfl, rfl, fun s => ⟨rfl, ?_⟩⟩
  simp [segMatches, convMatches, strConvMatches, List.isEmpty_iff]

/-- Claim C10, witness at the concrete segment `leo`. -/
theorem c10_untyped_equals_str_converter_witness :
    segMatches (Seg.param Conv.noConv "username") "leo"
      = segMatches (Seg.param Conv.str "username") "leo" :=
  (c10_untyped_equals_str_converter.2.2 "leo").1

/-- Claim C2: with pagination at 10 items per page, an author with
exactly 13 posts sees 10 posts on page 1 of the index and 3 posts on
page 2 (as `PaginatorViewsTest` asserts). -/
theorem c2_pagination_ten_per_page :
    ∀ posts : List Post, posts.length = 13 →
      (indexPage posts 1).length = 10 ∧ (indexPage posts 2).length = 3 := by
  intro posts h
  constructor <;> simp [indexPage, paginatorObjectList, h]

/-- Claim C2, witness at a concrete list of 13 posts. -/
theorem c2_pagination_ten_per_page_witness :
    (indexPage (List.replicate 13 ⟨"t", "u", none⟩) 1).length = 10 ∧
    (indexPage (List.replicate 13 (⟨"t", "u", none⟩ : Post)) 2).length = 3 :=
  c2_pagination_ten_per_page (List.replicate 13 ⟨"t", "u", none⟩) rfl

/-- Claim C3: with the whole-page cache, after the index has been
requested once, creating a new post does not change the body returned
by the next request (the two bodies are equal); a request after the
cache is cleared returns a body different from the cached one (as
`test_index_page_cache` asserts). -/
theorem c3_index_whole_page_cache :
    ∀ (posts : List Post) (p : Post),
      (requestIndex (requestIndex emptyCache posts).2 (posts ++ [p])).1
        = (requestIndex emptyCache posts).1 ∧
      (requestIndex
          (cacheClear (requestIndex (requestIndex emptyCache posts).2 (posts ++ [p])).2)
          (posts ++ [p])).1
        ≠ (requestIndex (requestIndex emptyCache posts).2 (posts ++ [p])).1 := by
  intro posts p
  refine ⟨rfl, fun h => ?_⟩
  have hlen := congrArg List.length h
  simp [requestIndex, emptyCache, cacheClear, renderIndex] at hlen

/-- Claim C3, witness at the empty post list and one concrete new
post. -/
theorem c3_index_whole_page_cache_witness :
    (requestIndex (requestIndex emptyCache []).2 ([] ++ [⟨"t", "u", none⟩])).1
      = (requestIndex emptyCache []).1 ∧
    (requestIndex
        (cacheClear
          (requestIndex (requestIndex emptyCache []).2 ([] ++ [⟨"t", "u", none⟩])).2)
        ([] ++ [(⟨"t", "u", none⟩ : Post)])).1
      ≠ (requestIndex (requestIndex emptyCache []).2 ([] ++ [⟨"t", "u", none⟩])).1 :=
  c3_index_whole_page_cache [] ⟨"t", "u", none⟩

/-- Claim C4: the group page shows exactly the posts of its group: a
post tagged with group `a` appears on group `a`'s page (one item) and
not on a different group `b`'s page (no items). -/
theorem c4_group_page_filters_by_group :
    ∀ (p : Post) (a b : String), p.group = some a → b ≠ a →
      group_page_posts a [p] = [p] ∧ group_page_posts b [p] = [] := by
  intro p a b hg hb
  constructor
  · simp [group_page_posts, hg]
  · simp [group_page_posts, hg]
    exact fun hab => hb hab.symm

/-- Claim C4, witness at a concrete post in group `A` and the other
group `B`. -/
theorem c4_group_page_filters_by_group_witness :
    group_page_posts "A" [⟨"t", "u", some "A"⟩] = [⟨"t", "u", some "A"⟩] ∧
    group_page_posts "B" [(⟨"t", "u", some "A"⟩ : Post)] = [] :=
  c4_group_page_filters_by_group ⟨"t", "u", some "A"⟩ "A" "B" rfl (by decide)

/-- Claim C5: `test_follow_unfollow_feauture` evaluates `user.count()`
with no binding for `user` in any scope of the test module, so every
run of the method raises `NameError` for `user` at its first statement,
before any assertion is reached. -/
theorem c5_follow_test_raises_nameerror :
    "user" ∉ methodScope ∧
    runBody methodScope ⟨0, 0⟩ test_follow_unfollow_feauture
      = Except.error ("user", ⟨0, 0⟩) := by
  exact ⟨by decide, rfl⟩

/-- Claim C6: `test_profile_shows_new_post` and
`test_only_authorized_client_can_comment` consist solely of `pass`, so
running either issues no request and reaches no assertion. -/
theorem c6_placeholder_tests_do_nothing :
    test_profile_shows_new_post = [PyStmt.passStmt] ∧
    test_only_authorized_client_can_comment = [PyStmt.passStmt] ∧
    runBody methodScope ⟨0, 0⟩ test_profile_shows_new_post = Except.ok ⟨0, 0⟩ ∧
    runBody methodScope ⟨0, 0⟩ test_only_authorized_client_can_comment
      = Except.ok ⟨0, 0⟩ :=
  ⟨rfl, rfl, rfl, rfl⟩

end Hw05
